import Mathlib

/-!
Shallow embedding of the fltk-rs binding core (src/src/prelude.rs and
src/src/menu.rs) together with the parts of the native FLTK / std layer
that the repository calls through FFI.  Rust `&mut self` methods are
embedded as state transformers; a Rust panic (an `unwrap` that fails) is
embedded as `Option.none`.
-/

namespace Fltk

/-! ## Error model (src/src/prelude.rs, lines 11-70) -/

/-- Modelled from the spec: the host standard library's `std::ffi::NulError`
(not part of this repository) records the position of the first interior
nul byte of the rejected string. -/
structure NulError where
  position : Nat
deriving DecidableEq, Repr

/-- Modelled from the spec: the host standard library's `std::io::Error`
(not part of this repository) is opaque here; we keep only the human
message its `Display` implementation renders. -/
structure IoError where
  message : String
deriving DecidableEq, Repr

/-- Closed internal-error enumeration `FltkErrorKind`
(src/src/prelude.rs, lines 19-25). -/
inductive FltkErrorKind where
  | FailedToRun
  | FailedToLock
  | FailedToSetScheme
  | ResourceNotFound
deriving DecidableEq, Repr

/-- `FltkErrorKind::as_str` (src/src/prelude.rs, lines 27-36). -/
def FltkErrorKind.as_str : FltkErrorKind → String
  | FltkErrorKind.FailedToRun => "Failed to run FLTK!"
  | FltkErrorKind.FailedToLock => "Failed to initialize app for multithreading!"
  | FltkErrorKind.FailedToSetScheme => "Failed to set scheme"
  | FltkErrorKind.ResourceNotFound => "Resource Not Found!"

/-- Rust `#[derive(Debug)]` rendering of `FltkErrorKind`: the variant name. -/
def FltkErrorKind.debug_str : FltkErrorKind → String
  | FltkErrorKind.FailedToRun => "FailedToRun"
  | FltkErrorKind.FailedToLock => "FailedToLock"
  | FltkErrorKind.FailedToSetScheme => "FailedToSetScheme"
  | FltkErrorKind.ResourceNotFound => "ResourceNotFound"

/-- Tagged error union `FltkError` (src/src/prelude.rs, lines 11-17). -/
inductive FltkError where
  | IoError (err : IoError)
  | NullError (err : NulError)
  | Internal (err : FltkErrorKind)
  | Unknown (err : String)
deriving DecidableEq, Repr

/-- Rust `{:?}` rendering of a `String`: the string between double quotes
(escaping of interior characters elided, which can only lengthen it). -/
def rustDebugStr (s : String) : String := "\"" ++ s ++ "\""

/-- Modelled from the spec: `Display` of the host `std::ffi::NulError`
(fixed format of the standard library, not part of this repository). -/
def NulError.display (e : NulError) : String :=
  "nul byte found in provided data at position: " ++ toString e.position

/-- `impl fmt::Display for FltkError` (src/src/prelude.rs, lines 49-58):
the two wrapping variants delegate to the wrapped error's rendering, the
other two prepend a fixed text to the debug rendering of their payload. -/
def FltkError.display : FltkError → String
  | FltkError.IoError err => err.message
  | FltkError.NullError err => err.display
  | FltkError.Internal err => "An internal error occured " ++ err.debug_str
  | FltkError.Unknown err => "An unknown error occurred " ++ rustDebugStr err

/-- `impl From<io::Error> for FltkError` (src/src/prelude.rs, lines 60-64). -/
def fltkError_from_io (err : IoError) : FltkError := FltkError.IoError err

/-- `impl From<std::ffi::NulError> for FltkError`
(src/src/prelude.rs, lines 66-70). -/
def fltkError_from_nul (err : NulError) : FltkError := FltkError.NullError err

/-! ## Native menu-item state (FFI layer behind src/src/menu.rs) -/

/-- Modelled from the spec: the native `Fl_Menu_Item` record behind the
`fltk-sys` FFI calls (not part of this repository).  Per the spec,
label/type/color/font/size/visibility/active-state are scalar fields
mutated through accessor pairs, and the menu flags are combinable bits
stored as one integer tag.  The label is a nul-convention byte string. -/
structure FlMenuItem where
  text : List Nat
  labeltype_ : Int
  labelfont_ : Int
  labelsize_ : Int
  labelcolor_ : Int
  flags : Nat
deriving DecidableEq, Repr

/-- Modelled from the spec: native accessor storing the label color field. -/
def Fl_Menu_Item_set_label_color (s : FlMenuItem) (c : Int) : FlMenuItem :=
  { s with labelcolor_ := c }

/-- Modelled from the spec: native accessor reading the label color field. -/
def Fl_Menu_Item_label_color (s : FlMenuItem) : Int := s.labelcolor_

/-- Modelled from the spec: native accessor storing the label font field. -/
def Fl_Menu_Item_set_label_font (s : FlMenuItem) (f : Int) : FlMenuItem :=
  { s with labelfont_ := f }

/-- Modelled from the spec: native accessor reading the label font field. -/
def Fl_Menu_Item_label_font (s : FlMenuItem) : Int := s.labelfont_

/-- Modelled from the spec: native accessor storing the label size field. -/
def Fl_Menu_Item_set_label_size (s : FlMenuItem) (sz : Int) : FlMenuItem :=
  { s with labelsize_ := sz }

/-- Modelled from the spec: native accessor reading the label size field. -/
def Fl_Menu_Item_label_size (s : FlMenuItem) : Int := s.labelsize_

/-- Modelled from the spec: native accessor storing the label bytes. -/
def Fl_Menu_Item_set_label (s : FlMenuItem) (bytes : List Nat) : FlMenuItem :=
  { s with text := bytes }

/-- Modelled from the spec: native `Fl_Menu_Item::set()` sets the
`FL_MENU_VALUE` bit (4) of the integer flag tag. -/
def Fl_Menu_Item_set (s : FlMenuItem) : FlMenuItem :=
  { s with flags := s.flags ||| 4 }

/-- Modelled from the spec: native `Fl_Menu_Item::clear()` clears the
`FL_MENU_VALUE` bit (4); the mask is the 32-bit complement of 4. -/
def Fl_Menu_Item_clear (s : FlMenuItem) : FlMenuItem :=
  { s with flags := s.flags &&& 4294967291 }

/-- Modelled from the spec: native `Fl_Menu_Item::show()` clears the
`FL_MENU_INVISIBLE` bit (0x10); the mask is the 32-bit complement of 16. -/
def Fl_Menu_Item_show (s : FlMenuItem) : FlMenuItem :=
  { s with flags := s.flags &&& 4294967279 }

/-- Modelled from the spec: native `Fl_Menu_Item::hide()` sets the
`FL_MENU_INVISIBLE` bit (0x10). -/
def Fl_Menu_Item_hide (s : FlMenuItem) : FlMenuItem :=
  { s with flags := s.flags ||| 16 }

/-- Modelled from the spec: native `Fl_Menu_Item::value()` returns the
masked `FL_MENU_VALUE` bit as an int. -/
def Fl_Menu_Item_value (s : FlMenuItem) : Nat := s.flags &&& 4

/-- Modelled from the spec: native `Fl_Menu_Item::visible()` returns a
nonzero int exactly when the `FL_MENU_INVISIBLE` bit is clear. -/
def Fl_Menu_Item_visible (s : FlMenuItem) : Nat :=
  if s.flags &&& 16 = 0 then 1 else 0

/-- Modelled from the spec: native `Fl_Menu_Item::activate()` clears the
`FL_MENU_INACTIVE` bit (1); the mask is the 32-bit complement of 1. -/
def Fl_Menu_Item_activate (s : FlMenuItem) : FlMenuItem :=
  { s with flags := s.flags &&& 4294967294 }

/-- Modelled from the spec: native `Fl_Menu_Item::deactivate()` sets the
`FL_MENU_INACTIVE` bit (1). -/
def Fl_Menu_Item_deactivate (s : FlMenuItem) : FlMenuItem :=
  { s with flags := s.flags ||| 1 }

/-! ## Rust wrapper layer (src/src/menu.rs) -/

/-- `Color` (declared in crate::enums, re-exported by prelude.rs): the
wrapper converts it with `as i32` / `mem::transmute`, so it is carried
here as its integer tag. -/
abbrev Color := Int

/-- `Font` (declared in crate::enums): carried as its integer tag. -/
abbrev Font := Int

/-- `MenuFlag` enumeration (src/src/menu.rs, lines 26-39). -/
inductive MenuFlag where
  | Normal
  | Inactive
  | Toggle
  | Value
  | Radio
  | Invisible
  | SubmenuPointer
  | Submenu
  | MenuDivider
  | MenuHorizontal
deriving DecidableEq, Repr

/-- The `#[repr(i32)]` discriminants of `MenuFlag`
(src/src/menu.rs, lines 26-39). -/
def MenuFlag.to_i32 : MenuFlag → Int
  | MenuFlag.Normal => 0
  | MenuFlag.Inactive => 1
  | MenuFlag.Toggle => 2
  | MenuFlag.Value => 4
  | MenuFlag.Radio => 8
  | MenuFlag.Invisible => 0x10
  | MenuFlag.SubmenuPointer => 0x20
  | MenuFlag.Submenu => 0x40
  | MenuFlag.MenuDivider => 0x80
  | MenuFlag.MenuHorizontal => 0x100

/-- Position of the first nul byte of a byte string, if any (the scan the
host `CString::new` performs). -/
def find_nul : List Nat → Option Nat
  | [] => none
  | b :: rest => if b = 0 then some 0 else (find_nul rest).map (· + 1)

/-- Modelled from the spec: the host `std::ffi::CString::new` (not part of
this repository) fails with a `NulError` holding the position of the first
interior nul byte, and otherwise accepts the bytes (the appended
terminator is elided here). -/
def cstring_new (bytes : List Nat) : Except NulError (List Nat) :=
  match find_nul bytes with
  | some i => Except.error ⟨i⟩
  | none => Except.ok bytes

/-- Rust `usize as i32` (64-bit usize truncated to a signed 32-bit int). -/
def usize_to_i32 (n : Nat) : Int :=
  if n % 4294967296 < 2147483648 then ((n % 4294967296 : Nat) : Int)
  else ((n % 4294967296 : Nat) : Int) - 4294967296

/-- Rust `i32 as usize` (sign extension to the 64-bit usize). -/
def i32_to_usize (i : Int) : Nat := (i % 18446744073709551616).toNat

/-- `MenuItem::set_label` (src/src/menu.rs, lines 49-54): builds a
`CString` from the text and `unwrap`s it before passing it to the native
setter; the failing `unwrap` is a panic, embedded as `none`. -/
def MenuItem.set_label (s : FlMenuItem) (txt : List Nat) : Option FlMenuItem :=
  match cstring_new txt with
  | Except.error _ => none
  | Except.ok c => some (Fl_Menu_Item_set_label s c)

/-- `MenuItem::label_color` (src/src/menu.rs, lines 63-65). -/
def MenuItem.label_color (s : FlMenuItem) : Color := Fl_Menu_Item_label_color s

/-- `MenuItem::set_label_color` (src/src/menu.rs, lines 67-69). -/
def MenuItem.set_label_color (s : FlMenuItem) (color : Color) : FlMenuItem :=
  Fl_Menu_Item_set_label_color s color

/-- `MenuItem::label_font` (src/src/menu.rs, lines 71-73). -/
def MenuItem.label_font (s : FlMenuItem) : Font := Fl_Menu_Item_label_font s

/-- `MenuItem::set_label_font` (src/src/menu.rs, lines 75-77): the body
calls `Fl_Menu_Item_set_label_color(self._inner, font as i32)` — the
color setter, not the font setter — exactly as in the source. -/
def MenuItem.set_label_font (s : FlMenuItem) (font : Font) : FlMenuItem :=
  Fl_Menu_Item_set_label_color s font

/-- `MenuItem::label_size` (src/src/menu.rs, lines 79-81). -/
def MenuItem.label_size (s : FlMenuItem) : Nat :=
  i32_to_usize (Fl_Menu_Item_label_size s)

/-- `MenuItem::set_label_size` (src/src/menu.rs, lines 83-85). -/
def MenuItem.set_label_size (s : FlMenuItem) (sz : Nat) : FlMenuItem :=
  Fl_Menu_Item_set_label_size s (usize_to_i32 sz)

/-- `MenuItem::value` (src/src/menu.rs, lines 87-94): zero maps to
`false`, anything else to `true`. -/
def MenuItem.value (s : FlMenuItem) : Bool :=
  match Fl_Menu_Item_value s with
  | 0 => false
  | _ => true

/-- `MenuItem::set` (src/src/menu.rs, lines 96-98). -/
def MenuItem.set (s : FlMenuItem) : FlMenuItem := Fl_Menu_Item_set s

/-- `MenuItem::clear` (src/src/menu.rs, lines 100-102). -/
def MenuItem.clear (s : FlMenuItem) : FlMenuItem := Fl_Menu_Item_clear s

/-- `MenuItem::visible` (src/src/menu.rs, lines 104-111): zero maps to
`false`, anything else to `true`. -/
def MenuItem.visible (s : FlMenuItem) : Bool :=
  match Fl_Menu_Item_visible s with
  | 0 => false
  | _ => true

/-- `MenuItem::active` (src/src/menu.rs, lines 113-115); named `show`-like
in Rust but a mutator: its body is the native activate call.  (Source
name kept.) -/
def MenuItem.active (s : FlMenuItem) : FlMenuItem := Fl_Menu_Item_activate s

/-- `MenuItem::activate` (src/src/menu.rs, lines 117-119). -/
def MenuItem.activate (s : FlMenuItem) : FlMenuItem := Fl_Menu_Item_activate s

/-- `MenuItem::deactivate` (src/src/menu.rs, lines 121-123). -/
def MenuItem.deactivate (s : FlMenuItem) : FlMenuItem := Fl_Menu_Item_deactivate s

/-- `MenuItem::show` (src/src/menu.rs, lines 124-126); `show` is a Lean
keyword, hence the prime. -/
def MenuItem.show' (s : FlMenuItem) : FlMenuItem := Fl_Menu_Item_show s

/-- `MenuItem::hide` (src/src/menu.rs, lines 128-130). -/
def MenuItem.hide (s : FlMenuItem) : FlMenuItem := Fl_Menu_Item_hide s

/-- A concrete zero-initialized menu item used as test input. -/
def mItem0 : FlMenuItem :=
  { text := [], labeltype_ := 0, labelfont_ := 0, labelsize_ := 0,
    labelcolor_ := 0, flags := 0 }

/-! ## Mutator call sequences on a menu item (claim C5) -/

/-- One call drawn from the four flag mutators of `MenuItem`
(src/src/menu.rs, lines 96-102 and 124-130); `show` is a Lean keyword,
hence the prime. -/
inductive MenuOp where
  | set
  | clear
  | show'
  | hide
deriving DecidableEq, Repr

/-- Applies one mutator call to a menu item. -/
def applyOp (s : FlMenuItem) : MenuOp → FlMenuItem
  | MenuOp.set => MenuItem.set s
  | MenuOp.clear => MenuItem.clear s
  | MenuOp.show' => MenuItem.show' s
  | MenuOp.hide => MenuItem.hide s

/-- Applies a sequence of mutator calls from left to right. -/
def applyOps (s : FlMenuItem) (ops : List MenuOp) : FlMenuItem :=
  ops.foldl applyOp s

/-- `some b` when the last of `set`/`clear` in the sequence is `set`
(`b = true`) or `clear` (`b = false`); `none` when the sequence holds
neither. -/
def lastSC : List MenuOp → Option Bool
  | [] => none
  | op :: rest =>
    match lastSC rest with
    | some b => some b
    | none =>
      match op with
      | MenuOp.set => some true
      | MenuOp.clear => some false
      | _ => none

/-- `some b` when the last of `show`/`hide` in the sequence is `show`
(`b = true`) or `hide` (`b = false`); `none` when the sequence holds
neither. -/
def lastSH : List MenuOp → Option Bool
  | [] => none
  | op :: rest =>
    match lastSH rest with
    | some b => some b
    | none =>
      match op with
      | MenuOp.show' => some true
      | MenuOp.hide => some false
      | _ => none

/-! ## Widget builder protocol (WidgetTrait, src/src/prelude.rs) -/

/-- Modelled from the spec: the state behind a concrete widget.  The
`WidgetTrait` implementations are generated by a derive macro outside
src/; per the spec the widget's geometry and label are a flat mutable
record read and written directly by the trait operations. -/
structure Widget where
  px : Int
  py : Int
  pw : Int
  ph : Int
  labelStr : String
deriving DecidableEq, Repr

/-- Modelled from the spec: `WidgetTrait::new(x, y, width, height, title)`
(declared at src/src/prelude.rs, line 81) constructs a widget with the
given geometry and label. -/
def Widget.new (x y width height : Int) (title : String) : Widget :=
  { px := x, py := y, pw := width, ph := height, labelStr := title }

/-- Modelled from the spec: `WidgetTrait::default()` (src/src/prelude.rs,
lines 82-83) "Creates a default and zero initialized widget". -/
def Widget.default : Widget :=
  { px := 0, py := 0, pw := 0, ph := 0, labelStr := "" }

/-- Modelled from the spec: `WidgetTrait::with_pos(x, y)`
(src/src/prelude.rs, lines 84-85) "Initialize to position x, y". -/
def Widget.with_pos (s : Widget) (x y : Int) : Widget :=
  { s with px := x, py := y }

/-- Modelled from the spec: `WidgetTrait::with_size(width, height)`
(src/src/prelude.rs, lines 86-87) "Initialilze to dimensions width and
height". -/
def Widget.with_size (s : Widget) (width height : Int) : Widget :=
  { s with pw := width, ph := height }

/-- Modelled from the spec: `WidgetTrait::with_label(title)`
(src/src/prelude.rs, lines 88-89). -/
def Widget.with_label (s : Widget) (title : String) : Widget :=
  { s with labelStr := title }

/-- `WidgetTrait::x` geometry accessor (src/src/prelude.rs, line 111). -/
def Widget.x (s : Widget) : Int := s.px

/-- `WidgetTrait::y` geometry accessor (src/src/prelude.rs, line 113). -/
def Widget.y (s : Widget) : Int := s.py

/-- `WidgetTrait::width` geometry accessor (src/src/prelude.rs, line 115). -/
def Widget.width (s : Widget) : Int := s.pw

/-- `WidgetTrait::height` geometry accessor (src/src/prelude.rs, line 117). -/
def Widget.height (s : Widget) : Int := s.ph

/-- Modelled from the spec: `WidgetTrait::right_of(w, padding)`
(src/src/prelude.rs, lines 94-95) "Positions the widget to the right of
w": the new x is w's right edge plus the padding. -/
def Widget.right_of (s : Widget) (w : Widget) (padding : Int) : Widget :=
  Widget.with_pos s (Widget.x w + Widget.width w + padding) (Widget.y w)

/-- Modelled from the spec: `WidgetTrait::left_of(w, padding)`
(src/src/prelude.rs, lines 96-97) "Positions the widget to the left of
w": the widget's right edge lands the padding left of w's left edge. -/
def Widget.left_of (s : Widget) (w : Widget) (padding : Int) : Widget :=
  Widget.with_pos s (Widget.x w - Widget.width s - padding) (Widget.y w)

/-- Modelled from the spec: `WidgetTrait::below_of(w, padding)`
(src/src/prelude.rs, lines 90-91) "Positions the widget below w": the new
y is w's bottom edge plus the padding. -/
def Widget.below_of (s : Widget) (w : Widget) (padding : Int) : Widget :=
  Widget.with_pos s (Widget.x w) (Widget.y w + Widget.height w + padding)

/-- Modelled from the spec: `WidgetTrait::above_of(w, padding)`
(src/src/prelude.rs, lines 92-93) "Positions the widget above w": the
widget's bottom edge lands the padding above w's top edge. -/
def Widget.above_of (s : Widget) (w : Widget) (padding : Int) : Widget :=
  Widget.with_pos s (Widget.x w) (Widget.y w - Widget.height s - padding)

/-! ## Callback bridge (claim C4) -/

/-- Modelled from the spec: a widget together with its registered callback
closure.  The closure's captured environment is the state `σ` it may
mutate; the stored closure is the erased callable slot of the callback
registry (spec sections 4.2 and 9). -/
structure WidgetCb (σ : Type) where
  env : σ
  cb : Option (σ → σ)

/-- Modelled from the spec: `WidgetTrait::set_callback`
(src/src/prelude.rs, lines 180-181) stores the closure against the
widget's trigger configuration. -/
def WidgetCb.set_callback {σ : Type} (w : WidgetCb σ) (f : σ → σ) : WidgetCb σ :=
  { w with cb := some f }

/-- Modelled from the spec: `WidgetTrait::do_callback`
(src/src/prelude.rs, lines 194-195) "Runs the already registered
callback": it invokes the stored closure synchronously, exactly once,
on the captured environment. -/
def WidgetCb.do_callback {σ : Type} (w : WidgetCb σ) : WidgetCb σ :=
  match w.cb with
  | some f => { w with env := f w.env }
  | none => w

/-! ## Widget handle cloning (claim C9) -/

/-- `MenuBar` (src/src/menu.rs, lines 5-8): a wrapper holding only the raw
pointer `_inner` to the native object; the pointer is embedded as a
natural-number address. -/
structure MenuBar where
  _inner : Nat
deriving DecidableEq, Repr

/-- Rust `#[derive(Clone)]` on `MenuBar` (src/src/menu.rs, line 5):
field-wise clone, which for a raw pointer copies the pointer itself. -/
def MenuBar.clone (m : MenuBar) : MenuBar := { _inner := m._inner }

/-- Modelled from the spec: native memory holding the label of the widget
at each address (the native widget tree owns the objects; handles are
addresses into it). -/
abbrev FlHeap := Nat → String

/-- Modelled from the spec: the native label setter writes the label field
of the object at the given address, leaving every other object intact. -/
def Fl_Widget_set_label (heap : FlHeap) (addr : Nat) (txt : String) : FlHeap :=
  fun a => if a = addr then txt else heap a

/-- Modelled from the spec: `WidgetTrait::set_label` (src/src/prelude.rs,
line 103) forwards to the native setter at the handle's address. -/
def MenuBar.set_label (heap : FlHeap) (m : MenuBar) (txt : String) : FlHeap :=
  Fl_Widget_set_label heap m._inner txt

/-- Modelled from the spec: `WidgetTrait::label` (src/src/prelude.rs,
line 119) reads the native label at the handle's address. -/
def MenuBar.label (heap : FlHeap) (m : MenuBar) : String := heap m._inner

/-! ## Helper lemmas on the menu-item flag bits -/

theorem menuItem_value_testBit (s : FlMenuItem) :
    MenuItem.value s = s.flags.testBit 2 := by
  unfold MenuItem.value Fl_Menu_Item_value
  rw [show (4 : Nat) = 2 ^ 2 from rfl, Nat.and_two_pow]
  cases s.flags.testBit 2 <;> rfl

theorem menuItem_visible_testBit (s : FlMenuItem) :
    MenuItem.visible s = !s.flags.testBit 4 := by
  unfold MenuItem.visible Fl_Menu_Item_visible
  rw [show (16 : Nat) = 2 ^ 4 from rfl, Nat.and_two_pow]
  cases s.flags.testBit 4 <;> rfl

theorem value_set (s : FlMenuItem) : MenuItem.value (MenuItem.set s) = true := by
  rw [menuItem_value_testBit]
  show (s.flags ||| 4).testBit 2 = true
  rw [Nat.testBit_or, show Nat.testBit 4 2 = true from by decide, Bool.or_true]

theorem value_clear (s : FlMenuItem) :
    MenuItem.value (MenuItem.clear s) = false := by
  rw [menuItem_value_testBit]
  show (s.flags &&& 4294967291).testBit 2 = false
  rw [Nat.testBit_and, show Nat.testBit 4294967291 2 = false from by decide,
    Bool.and_false]

theorem value_show (s : FlMenuItem) :
    MenuItem.value (MenuItem.show' s) = MenuItem.value s := by
  rw [menuItem_value_testBit, menuItem_value_testBit]
  show (s.flags &&& 4294967279).testBit 2 = s.flags.testBit 2
  rw [Nat.testBit_and, show Nat.testBit 4294967279 2 = true from by decide,
    Bool.and_true]

theorem value_hide (s : FlMenuItem) :
    MenuItem.value (MenuItem.hide s) = MenuItem.value s := by
  rw [menuItem_value_testBit, menuItem_value_testBit]
  show (s.flags ||| 16).testBit 2 = s.flags.testBit 2
  rw [Nat.testBit_or, show Nat.testBit 16 2 = false from by decide,
    Bool.or_false]

theorem visible_show (s : FlMenuItem) :
    MenuItem.visible (MenuItem.show' s) = true := by
  rw [menuItem_visible_testBit]
  show (!(s.flags &&& 4294967279).testBit 4) = true
  rw [Nat.testBit_and, show Nat.testBit 4294967279 4 = false from by decide,
    Bool.and_false, Bool.not_false]

theorem visible_hide (s : FlMenuItem) :
    MenuItem.visible (MenuItem.hide s) = false := by
  rw [menuItem_visible_testBit]
  show (!(s.flags ||| 16).testBit 4) = false
  rw [Nat.testBit_or, show Nat.testBit 16 4 = true from by decide,
    Bool.or_true, Bool.not_true]

theorem visible_set (s : FlMenuItem) :
    MenuItem.visible (MenuItem.set s) = MenuItem.visible s := by
  rw [menuItem_visible_testBit, menuItem_visible_testBit]
  show (!(s.flags ||| 4).testBit 4) = !s.flags.testBit 4
  rw [Nat.testBit_or, show Nat.testBit 4 4 = false from by decide,
    Bool.or_false]

theorem visible_clear (s : FlMenuItem) :
    MenuItem.visible (MenuItem.clear s) = MenuItem.visible s := by
  rw [menuItem_visible_testBit, menuItem_visible_testBit]
  show (!(s.flags &&& 4294967291).testBit 4) = !s.flags.testBit 4
  rw [Nat.testBit_and, show Nat.testBit 4294967291 4 = true from by decide,
    Bool.and_true]

theorem value_applyOps (ops : List MenuOp) :
    ∀ s : FlMenuItem,
      MenuItem.value (applyOps s ops) =
        (lastSC ops).getD (MenuItem.value s) := by
  induction ops with
  | nil => intro s; rfl
  | cons op rest ih =>
    intro s
    have hstep : applyOps s (op :: rest) = applyOps (applyOp s op) rest := rfl
    rw [hstep, ih]
    cases hrest : lastSC rest with
    | some b => cases op <;> simp [lastSC, hrest]
    | none =>
      cases op <;>
        simp [lastSC, hrest, applyOp, value_set, value_clear, value_show,
          value_hide]

theorem visible_applyOps (ops : List MenuOp) :
    ∀ s : FlMenuItem,
      MenuItem.visible (applyOps s ops) =
        (lastSH ops).getD (MenuItem.visible s) := by
  induction ops with
  | nil => intro s; rfl
  | cons op rest ih =>
    intro s
    have hstep : applyOps s (op :: rest) = applyOps (applyOp s op) rest := rfl
    rw [hstep, ih]
    cases hrest : lastSH rest with
    | some b => cases op <;> simp [lastSH, hrest]
    | none =>
      cases op <;>
        simp [lastSH, hrest, applyOp, visible_set, visible_clear,
          visible_show, visible_hide]

/-- Helper for the C2 amended statement: a byte string holding a nul byte
is rejected by the `CString` scan at some position. -/
theorem find_nul_of_mem (txt : List Nat) (h : 0 ∈ txt) :
    ∃ i, find_nul txt = some i := by
  induction txt with
  | nil => cases h
  | cons b rest ih =>
    by_cases hb : b = 0
    · exact ⟨0, by simp [find_nul, hb]⟩
    · have hmem : 0 ∈ rest := by
        cases h with
        | head => exact absurd rfl hb
        | tail _ hm => exact hm
      obtain ⟨i, hi⟩ := ih hmem
      exact ⟨i + 1, by simp [find_nul, hb, hi]⟩

/-! ## Claim theorems -/

/-- C1: the label round-trip claim fails on the code for `label_font`:
`MenuItem::set_label_font` (src/src/menu.rs, line 76) calls the native
*color* setter, so on a zero-initialized item setting font 4 leaves
`label_font()` at 0 and clobbers `label_color()` to 4 instead, while the
color and size round-trips do hold (shown here at color 3 and size 255). -/
theorem set_label_font_writes_color_field :
    MenuItem.label_font (MenuItem.set_label_font mItem0 4) = 0 ∧
    MenuItem.label_color (MenuItem.set_label_font mItem0 4) = 4 ∧
    MenuItem.label_color (MenuItem.set_label_color mItem0 3) = 3 ∧
    MenuItem.label_size (MenuItem.set_label_size mItem0 255) = 255 :=
  ⟨rfl, rfl, rfl, by decide⟩

/-- C2 counterexample: on the input bytes "h\x00i" (a string with an
embedded nul), `MenuItem::set_label` (src/src/menu.rs, lines 49-54) hits
the `unwrap` of the failed `CString::new` and panics — embedded as
`none` — instead of surfacing `FltkError::NullError`; the claim as
stated is therefore false at this input. -/
theorem set_label_nul_panics_cex :
    MenuItem.set_label mItem0 [104, 0, 105] = none := rfl

/-- C2 amended: for every input byte string containing an embedded nul,
`MenuItem::set_label` panics (the `unwrap` of the failed `CString::new`
aborts the call); the `NulError` is never surfaced as the tagged
`FltkError::NullError` value because `set_label` returns unit. -/
theorem set_label_panics_on_interior_nul (s : FlMenuItem) (txt : List Nat)
    (h : 0 ∈ txt) : MenuItem.set_label s txt = none := by
  obtain ⟨i, hi⟩ := find_nul_of_mem txt h
  unfold MenuItem.set_label cstring_new
  rw [hi]

/-- C2 witness: the amended statement applied at the concrete one-byte
input consisting of a single nul byte. -/
theorem set_label_panics_on_interior_nul_witness :
    MenuItem.set_label mItem0 [0] = none :=
  set_label_panics_on_interior_nul mItem0 [0] (by decide)

/-- C3: `FltkError` is a tagged union of exactly the four alternatives,
its internal kind is the closed four-value enumeration, its `Display`
rendering is non-empty for every alternative (for the wrapped host I/O
error this needs the host rendering itself to be non-empty, which is the
hypothesis), and the two `From` conversions yield the I/O and
invalid-string alternatives respectively. -/
theorem fltkError_taxonomy (e : FltkError)
    (hio : ∀ io : IoError, e = FltkError.IoError io → 0 < io.message.length) :
    ((∃ io, e = FltkError.IoError io) ∨ (∃ ne, e = FltkError.NullError ne) ∨
      (∃ k, e = FltkError.Internal k) ∨ (∃ s, e = FltkError.Unknown s)) ∧
    (∀ k : FltkErrorKind,
      k = FltkErrorKind.FailedToRun ∨ k = FltkErrorKind.FailedToLock ∨
      k = FltkErrorKind.FailedToSetScheme ∨
      k = FltkErrorKind.ResourceNotFound) ∧
    0 < (FltkError.display e).length ∧
    (∀ io, fltkError_from_io io = FltkError.IoError io) ∧
    (∀ ne, fltkError_from_nul ne = FltkError.NullError ne) := by
  refine ⟨?_, ?_, ?_, fun _ => rfl, fun _ => rfl⟩
  · cases e with
    | IoError io => exact Or.inl ⟨io, rfl⟩
    | NullError ne => exact Or.inr (Or.inl ⟨ne, rfl⟩)
    | Internal k => exact Or.inr (Or.inr (Or.inl ⟨k, rfl⟩))
    | Unknown s => exact Or.inr (Or.inr (Or.inr ⟨s, rfl⟩))
  · intro k
    cases k with
    | FailedToRun => exact Or.inl rfl
    | FailedToLock => exact Or.inr (Or.inl rfl)
    | FailedToSetScheme => exact Or.inr (Or.inr (Or.inl rfl))
    | ResourceNotFound => exact Or.inr (Or.inr (Or.inr rfl))
  · cases e with
    | IoError io => exact hio io rfl
    | NullError ne =>
      have h1 : ("nul byte found in provided data at position: ").length = 45 := rfl
      simp only [FltkError.display, NulError.display, String.length_append, h1]
      omega
    | Internal k =>
      have h1 : ("An internal error occured ").length = 26 := rfl
      simp only [FltkError.display, String.length_append, h1]
      omega
    | Unknown s =>
      have h1 : ("An unknown error occurred ").length = 26 := rfl
      have h2 : ("\"").length = 1 := rfl
      simp only [FltkError.display, rustDebugStr, String.length_append, h1, h2]
      omega

/-- C3 witness: the taxonomy theorem applied at the concrete error value
`FltkError::Internal(FailedToRun)`, whose hypothesis is vacuous. -/
theorem fltkError_taxonomy_witness :
    0 < (FltkError.display
      (FltkError.Internal FltkErrorKind.FailedToRun)).length :=
  (fltkError_taxonomy (FltkError.Internal FltkErrorKind.FailedToRun)
    (fun _ h => nomatch h)).2.2.1

/-- C4: after registering any closure via `set_callback`, one call of
`do_callback` applies that closure exactly once to the captured
environment, and the mutated environment is the widget's environment
right after the call; the second conjunct instruments the closure with a
counter and shows the count rises by exactly one. -/
theorem do_callback_invokes_once (σ : Type) (w : WidgetCb σ) (f : σ → σ) :
    (WidgetCb.do_callback (WidgetCb.set_callback w f)).env = f w.env ∧
    (∀ (τ : Type) (w2 : WidgetCb (τ × Nat)) (g : τ → τ),
      ((WidgetCb.do_callback
        (WidgetCb.set_callback w2 (fun p => (g p.1, p.2 + 1)))).env).2 =
        w2.env.2 + 1) :=
  ⟨rfl, fun _ _ _ => rfl⟩

/-- C5: for every menu item and every sequence of calls drawn from
{set, clear, show, hide}, whenever the sequence contains a set/clear
(last one recorded by `lastSC`) and a show/hide (last one recorded by
`lastSH`), `value()` reads back exactly whether the last of set/clear was
set, and `visible()` exactly whether the last of show/hide was show,
independent of the interleaving. -/
theorem menu_value_visible_reflect (s : FlMenuItem) (ops : List MenuOp)
    (bv bs : Bool) (hv : lastSC ops = some bv) (hs : lastSH ops = some bs) :
    MenuItem.value (applyOps s ops) = bv ∧
    MenuItem.visible (applyOps s ops) = bs := by
  rw [value_applyOps, visible_applyOps, hv, hs]
  exact ⟨rfl, rfl⟩

/-- C5 witness: the reflection theorem applied to the concrete
interleaved sequence set, hide, clear, show on the zero-initialized item:
the last of set/clear is clear and the last of show/hide is show. -/
theorem menu_value_visible_reflect_witness :
    MenuItem.value (applyOps mItem0
      [MenuOp.set, MenuOp.hide, MenuOp.clear, MenuOp.show']) = false ∧
    MenuItem.visible (applyOps mItem0
      [MenuOp.set, MenuOp.hide, MenuOp.clear, MenuOp.show']) = true :=
  menu_value_visible_reflect mItem0
    [MenuOp.set, MenuOp.hide, MenuOp.clear, MenuOp.show'] false true rfl rfl

/-- C6: the builder round-trip — after `with_size(w, h)` the `width()`
and `height()` accessors return exactly the supplied arguments, and after
`with_pos(x, y)` the `x()` and `y()` accessors return exactly the
supplied arguments, for every widget and all integer arguments. -/
theorem with_pos_with_size_roundtrip (s : Widget) (a b c d : Int) :
    Widget.width (Widget.with_size s c d) = c ∧
    Widget.height (Widget.with_size s c d) = d ∧
    Widget.x (Widget.with_pos s a b) = a ∧
    Widget.y (Widget.with_pos s a b) = b :=
  ⟨rfl, rfl, rfl, rfl⟩

/-- C7: each relative-positioning builder call offsets the corresponding
coordinate from the reference widget's corresponding edge by exactly the
padding, for every padding (in particular 0, 1 and 100): `right_of` puts
`x()` at `w.x() + w.width() + pad`, `below_of` puts `y()` at
`w.y() + w.height() + pad`, and `left_of`/`above_of` place the widget's
own far edge the padding before the reference widget's near edge. -/
theorem relative_positioning_offsets (s w : Widget) (pad : Int) :
    Widget.x (Widget.right_of s w pad) = Widget.x w + Widget.width w + pad ∧
    Widget.y (Widget.below_of s w pad) = Widget.y w + Widget.height w + pad ∧
    Widget.x (Widget.left_of s w pad) = Widget.x w - Widget.width s - pad ∧
    Widget.y (Widget.above_of s w pad) = Widget.y w - Widget.height s - pad :=
  ⟨rfl, rfl, rfl, rfl⟩

/-- C8: a widget constructed with `default()` has all four geometry
accessors return zero. -/
theorem default_geometry_zero :
    Widget.x Widget.default = 0 ∧ Widget.y Widget.default = 0 ∧
    Widget.width Widget.default = 0 ∧ Widget.height Widget.default = 0 :=
  ⟨rfl, rfl, rfl, rfl⟩

/-- C9: cloning a widget handle copies only the raw pointer, so the clone
references the same native object: a label written through the clone is
read back through the original handle, and vice versa, over any native
heap. -/
theorem clone_shares_native_object (heap : FlHeap) (m : MenuBar)
    (txt : String) :
    MenuBar.label (MenuBar.set_label heap (MenuBar.clone m) txt) m = txt ∧
    MenuBar.label (MenuBar.set_label heap m txt) (MenuBar.clone m) = txt := by
  constructor <;>
    simp [MenuBar.label, MenuBar.set_label, MenuBar.clone, Fl_Widget_set_label]

/-- C10: `MenuItem::active` and `MenuItem::activate` (src/src/menu.rs,
lines 113-119) are extensionally equal state transformers: both bodies
are the same native activation call, so either leaves the item in an
identical state. -/
theorem active_eq_activate (s : FlMenuItem) :
    MenuItem.active s = MenuItem.activate s := rfl

end Fltk
